import Mathlib

/-!
Shallow embedding of `celbridge_export.go` (Celestia bridge metrics
exporter) and proofs of the specification claims about it.

Modelling conventions:
* JSON values decoded by `json.Unmarshal` are the inductive `Json`;
  decoding into `map[string]interface\x7b\x7d` succeeds only on a top-level
  object, which `Json.asObj` captures (a Go type assertion).
* Go maps built from JSON objects keep the last value written for a key,
  so `jsonLookup` returns the last binding.
* Everything the network / OS does during one `getHeight` call is the
  `RpcOutcome` the call encounters; `getHeight` itself is translated
  line by line from the source.
* Prometheus gauges store `float64`; the heights in every claim are far
  below 2^53, where the `int → float64` conversion in
  `localHeight.Set(float64(local))` is exact, so gauge values are
  modelled as `Int`.
-/

/-- A JSON value as decoded by `encoding/json` into `interface\x7b\x7d`. -/
inductive Json where
  | null : Json
  | jbool : Bool → Json
  | jnum : Int → Json
  | jstr : String → Json
  | jarr : List Json → Json
  | jobj : List (String × Json) → Json

/-- Lookup in a Go map built from a JSON object: later duplicate keys
overwrite earlier ones, and a missing key yields the nil interface
(here `none`). -/
def jsonLookup (fields : List (String × Json)) (k : String) : Option Json :=
  fields.foldl (fun acc p => if p.1 = k then some p.2 else acc) none

/-- The Go type assertion `v.(map[string]interface\x7b\x7d)`: succeeds only on
an object. -/
def Json.asObj : Json → Option (List (String × Json))
  | .jobj f => some f
  | _ => none

/-- The Go type assertion `v.(string)`: succeeds only on a string. -/
def Json.asStr : Json → Option String
  | .jstr s => some s
  | _ => none

/-- Value of a decimal digit character, `none` on a non-digit. -/
def digitVal (c : Char) : Option Nat :=
  if '0' ≤ c ∧ c ≤ '9' then some (c.toNat - '0'.toNat) else none

/-- Accumulate a decimal digit string; `none` if empty or any character
is not a digit. -/
def digitsVal : List Char → Option Nat
  | [] => none
  | cs => cs.foldl (fun acc c => do
      let a ← acc
      let d ← digitVal c
      pure (a * 10 + d)) (some 0)

/-- Go's `strconv.Atoi`: optional sign, decimal digits only, value must
fit in a 64-bit `int`; every other input is an error (`none`). -/
def atoi (s : String) : Option Int :=
  let signed : Int × List Char :=
    match s.data with
    | '+' :: cs => (1, cs)
    | '-' :: cs => (-1, cs)
    | cs => (1, cs)
  match digitsVal signed.2 with
  | none => none
  | some n =>
    let v : Int := signed.1 * (n : Int)
    if v < -(2 ^ 63) ∨ 2 ^ 63 ≤ v then none else some v

/-- What `json.Unmarshal(respBytes, &respData)` produced: `none` is an
unmarshal error (invalid JSON, or a top-level value handled below by
`Json.asObj` when it is not an object — Go reports that as an unmarshal
error too, which the pipeline folds into the same failure). -/
abbrev ParseResult := Option Json

/-- Reading the response body: either `ioutil.ReadAll` failed, or it
returned bytes whose unmarshalling outcome is recorded. -/
inductive BodyRead where
  | readError : BodyRead
  | ok : ParseResult → BodyRead

/-- Everything the environment does to one `getHeight` call:
`http.NewRequest` may fail, `client.Do` may fail, or an HTTP response
with a status code and a body arrives. -/
inductive RpcOutcome where
  | newRequestError : RpcOutcome
  | transportError : RpcOutcome
  | resp : Nat → BodyRead → RpcOutcome

/-- The request `getHeight` builds before sending (source lines 79–94):
`http.NewRequest("POST", endpoint, body)` with the JSON-RPC body map and
the two headers set by `req.Header.Set`. -/
structure RpcRequest where
  httpMethod : String
  url : String
  jsonrpc : String
  id : Int
  method : String
  params : List Json
  contentType : String
  authorization : String

/-- Request construction in `getHeight`: the `reqData` map literal
(`jsonrpc: "2.0"`, `id: 1`, the method name, empty params) plus
`Content-Type: application/json` and
`Authorization: fmt.Sprintf("Bearer %s", authToken)`. -/
def getHeightRequest (authToken method endpoint : String) : RpcRequest :=
  { httpMethod := "POST"
    url := endpoint
    jsonrpc := "2.0"
    id := 1
    method := method
    params := []
    contentType := "application/json"
    authorization := "Bearer " ++ authToken }

/-- Response handling in `getHeight` (source lines 96–144): every early
`return 0` branch of the source appears as a `0` here, and the final
`return height` as the parsed value. -/
def getHeight (outcome : RpcOutcome) : Int :=
  match outcome with
  | .newRequestError => 0
  | .transportError => 0
  | .resp status body =>
    if status ≠ 200 then 0
    else
      match body with
      | .readError => 0
      | .ok parse =>
        match parse.bind Json.asObj with
        | none => 0
        | some respData =>
          match (jsonLookup respData "result").bind Json.asObj with
          | none => 0
          | some result =>
            match (jsonLookup result "header").bind Json.asObj with
            | none => 0
            | some header =>
              match (jsonLookup header "height").bind Json.asStr with
              | none => 0
              | some heightStr =>
                match atoi heightStr with
                | none => 0
                | some height => height

/-- The environment of one poll iteration: the outcome met by the
`header.LocalHead` call and the one met by the `header.NetworkHead`
call. -/
structure RpcEnv where
  localOutcome : RpcOutcome
  networkOutcome : RpcOutcome

/-- `getHeights` (source lines 72–77): two sequential `getHeight` calls
and an error that is the literal `nil` (`none`). -/
def getHeights (env : RpcEnv) : Int × Int × Option String :=
  (getHeight env.localOutcome, getHeight env.networkOutcome, none)

/-- The two process-wide gauges `localHeight` and `networkHeight`. -/
structure Gauges where
  localHeight : Int
  networkHeight : Int
deriving DecidableEq, Repr

/-- `prometheus.NewGauge` starts every gauge at 0. -/
def initialGauges : Gauges :=
  { localHeight := 0, networkHeight := 0 }

/-- `updateMetrics` (source lines 61–70): on a non-nil error it logs and
returns leaving the gauges alone, otherwise it calls `Set` on both. -/
def updateMetrics (g : Gauges) (env : RpcEnv) : Gauges :=
  let r := getHeights env
  match r.2.2 with
  | some _ => g
  | none => { localHeight := r.1, networkHeight := r.2.1 }

/-- Outcome of `exec.Command("celestia", ...).CombinedOutput()`: a
non-nil error with whatever combined output was captured, or success
with the combined output. -/
inductive CmdResult where
  | execError : String → CmdResult
  | success : String → CmdResult
deriving DecidableEq, Repr

/-- Whitespace as `unicode.IsSpace` sees it for the Latin-1 range Go's
`strings.TrimSpace` cuts: tab, newline, vertical tab, form feed,
carriage return, space, next line (U+0085) and no-break space (U+00A0);
auth tokens contain none of the rarer Unicode space-category runes. -/
def isSpaceGo (c : Char) : Bool :=
  c == ' ' || c == '\t' || c == '\n' || c == '\r' ||
  c.toNat == 11 || c.toNat == 12 || c.toNat == 133 || c.toNat == 160

/-- Go's `strings.TrimSpace`: drop leading and trailing whitespace. -/
def trimSpace (s : String) : String :=
  ⟨((s.data.dropWhile isSpaceGo).reverse.dropWhile isSpaceGo).reverse⟩

/-- `getAuthToken` (source lines 146–154): on error log and return `""`,
otherwise `strings.TrimSpace` of the combined output. -/
def getAuthToken (r : CmdResult) : String :=
  match r with
  | .execError _ => ""
  | .success out => trimSpace out

/-- The sequence of RPC requests the poller goroutine (source lines
48–55) issues over its first `n` iterations: the token is fetched once
before the loop and each iteration builds the `header.LocalHead` request
then the `header.NetworkHead` request with that same token;
`pollerRequestsAux` unrolls the loop body `n` times. -/
def pollerRequestsAux (authToken endpoint : String) : Nat → List RpcRequest
  | 0 => []
  | n + 1 =>
    getHeightRequest authToken "header.LocalHead" endpoint ::
    getHeightRequest authToken "header.NetworkHead" endpoint ::
    pollerRequestsAux authToken endpoint n

/-- The poller goroutine (source lines 48–55): `authToken :=
getAuthToken(*p2pNetwork)` runs once before the loop, and every
iteration issues the two requests with that same token. -/
def pollerRequests (cmd : CmdResult) (endpoint : String) (n : Nat) :
    List RpcRequest :=
  let authToken := getAuthToken cmd
  pollerRequestsAux authToken endpoint n

/-- `ServeMux.Handle` / `HandleFunc` on the default mux: registering a
pattern that is already registered panics. -/
def registerPattern (registered : List String) (p : String) :
    Except String (List String) :=
  if p ∈ registered then
    .error ("http: multiple registrations for " ++ p)
  else
    .ok (p :: registered)

/-- Observable result of running `main` up to the point where it would
block in `http.ListenAndServe`. -/
structure MainResult where
  panicked : Option String
  pollerStarted : Bool
  listenerBound : Bool
deriving DecidableEq, Repr

/-- `main` (source lines 37–59) after flag parsing: `http.Handle`
registers `/metrics`, then `http.HandleFunc` registers `/metrics` again,
then the poller goroutine is started and the listener bound. A panic in
a registration aborts the remaining steps. -/
def mainStartup : MainResult :=
  match registerPattern [] "/metrics" with
  | .error msg =>
    { panicked := some msg, pollerStarted := false, listenerBound := false }
  | .ok r1 =>
    match registerPattern r1 "/metrics" with
    | .error msg =>
      { panicked := some msg, pollerStarted := false, listenerBound := false }
    | .ok _ =>
      { panicked := none, pollerStarted := true, listenerBound := true }

/-- The successful-extraction pipeline the spec describes for one RPC
call: `some h` exactly when the response is a 200 whose body reads and
parses into an object carrying `result.header.height` as a decimal
string convertible to an int. -/
def rpcSuccessHeight (outcome : RpcOutcome) : Option Int :=
  match outcome with
  | .newRequestError => none
  | .transportError => none
  | .resp status body =>
    if status ≠ 200 then none
    else
      match body with
      | .readError => none
      | .ok parse =>
        match parse.bind Json.asObj with
        | none => none
        | some respData =>
          match (jsonLookup respData "result").bind Json.asObj with
          | none => none
          | some result =>
            match (jsonLookup result "header").bind Json.asObj with
            | none => none
            | some header =>
              match (jsonLookup header "height").bind Json.asStr with
              | none => none
              | some heightStr => atoi heightStr

/-- A concrete well-formed RPC response body carrying the given height
string at `result.header.height`. -/
def goodBody (h : String) : Json :=
  .jobj [("jsonrpc", .jstr "2.0"), ("id", .jnum 1),
    ("result", .jobj [("header", .jobj [("height", .jstr h)])])]

/-- A concrete outcome: HTTP 200 with the well-formed body for `h`. -/
def goodOutcome (h : String) : RpcOutcome :=
  .resp 200 (.ok (some (goodBody h)))

/-- `getHeight` is the success-pipeline value with default 0: every
failing step yields 0 and a full success yields the parsed height. -/
theorem getHeight_eq_success_getD (o : RpcOutcome) :
    getHeight o = (rpcSuccessHeight o).getD 0 := by
  cases o with
  | newRequestError => rfl
  | transportError => rfl
  | resp status body =>
    by_cases hs : status = 200
    · subst hs
      cases body with
      | readError => rfl
      | ok parse =>
        cases h1 : parse.bind Json.asObj with
        | none => simp [getHeight, rpcSuccessHeight, h1]
        | some respData =>
          cases h2 : (jsonLookup respData "result").bind Json.asObj with
          | none => simp [getHeight, rpcSuccessHeight, h1, h2]
          | some result =>
            cases h3 : (jsonLookup result "header").bind Json.asObj with
            | none => simp [getHeight, rpcSuccessHeight, h1, h2, h3]
            | some header =>
              cases h4 : (jsonLookup header "height").bind Json.asStr with
              | none => simp [getHeight, rpcSuccessHeight, h1, h2, h3, h4]
              | some hstr =>
                cases h5 : atoi hstr with
                | none => simp [getHeight, rpcSuccessHeight, h1, h2, h3, h4, h5]
                | some v => simp [getHeight, rpcSuccessHeight, h1, h2, h3, h4, h5]
    · simp [getHeight, rpcSuccessHeight, hs]

/-- Every request the poller ever issues is one of the two requests
built with the once-fetched token. -/
theorem pollerRequestsAux_mem (t e : String) (n : Nat) (r : RpcRequest)
    (hr : r ∈ pollerRequestsAux t e n) :
    r = getHeightRequest t "header.LocalHead" e ∨
    r = getHeightRequest t "header.NetworkHead" e := by
  induction n with
  | zero => cases hr
  | succ k ih =>
    simp only [pollerRequestsAux, List.mem_cons] at hr
    rcases hr with h | h | h
    · exact Or.inl h
    · exact Or.inr h
    · exact ih h

/-- The poller issues exactly two requests per iteration. -/
theorem pollerRequestsAux_length (t e : String) (n : Nat) :
    (pollerRequestsAux t e n).length = 2 * n := by
  induction n with
  | zero => rfl
  | succ k ih =>
    simp only [pollerRequestsAux, List.length_cons, ih]
    omega

/-- C1: the claim states that a poll iteration in which the RPC calls
fail leaves both gauges at their prior values. The code violates this:
`getHeight` maps every failure to 0 and `getHeights` never returns an
error, so `updateMetrics` sets both gauges to 0. Concretely, with the
gauges previously at 100 and 200, an iteration whose two calls both hit
transport errors leaves the gauges at 0, not at 100 and 200. -/
theorem c1_failed_poll_resets_gauges_to_zero :
    updateMetrics { localHeight := 100, networkHeight := 200 }
        { localOutcome := .transportError, networkOutcome := .transportError } =
      { localHeight := 0, networkHeight := 0 } := rfl

/-- C2: the claim states that a default run serves `GET /metrics` with
status 200 and both gauge lines. The code never gets there: `mainStartup`
panics on the duplicate `/metrics` registration before the listener is
bound, so no request is ever answered — even though the two gauges do
start at 0 as the claim describes. -/
theorem c2_metrics_endpoint_never_served :
    mainStartup.listenerBound = false ∧ mainStartup.panicked.isSome = true ∧
    initialGauges.localHeight = 0 ∧ initialGauges.networkHeight = 0 :=
  ⟨rfl, rfl, rfl, rfl⟩

/-- C3: `getHeights` returns a nil error on every input, so the error
branch of `updateMetrics` is unreachable and every poll iteration
unconditionally calls `Set` on both gauges with whatever `getHeight`
produced. -/
theorem c3_getHeights_never_errors (env : RpcEnv) (g : Gauges) :
    (getHeights env).2.2 = none ∧
    updateMetrics g env =
      { localHeight := getHeight env.localOutcome,
        networkHeight := getHeight env.networkOutcome } :=
  ⟨rfl, rfl⟩

/-- C4: `main` registers the pattern `/metrics` on the default mux twice
(`http.Handle`, then `http.HandleFunc`); the second registration panics
with the duplicate-registration message, before the poller goroutine is
started and before the listener is bound. -/
theorem c4_duplicate_metrics_registration_panics :
    mainStartup.panicked = some "http: multiple registrations for /metrics" ∧
    mainStartup.pollerStarted = false ∧
    mainStartup.listenerBound = false :=
  ⟨rfl, rfl, rfl⟩

/-- C5: when an RPC call gets an HTTP 200 response whose well-formed
JSON body carries `result.header.height = "12345"`, `getHeight` returns
12345, and the poll cycle leaves the corresponding gauge — local for
`header.LocalHead`, network for `header.NetworkHead` — at exactly
12345. -/
theorem c5_wellformed_response_sets_gauge (g : Gauges) (other : RpcOutcome)
    (respData result header : List (String × Json))
    (h1 : (jsonLookup respData "result").bind Json.asObj = some result)
    (h2 : (jsonLookup result "header").bind Json.asObj = some header)
    (h3 : (jsonLookup header "height").bind Json.asStr = some "12345") :
    getHeight (.resp 200 (.ok (some (.jobj respData)))) = 12345 ∧
    (updateMetrics g
        { localOutcome := .resp 200 (.ok (some (.jobj respData))),
          networkOutcome := other }).localHeight = 12345 ∧
    (updateMetrics g
        { localOutcome := other,
          networkOutcome :=
            .resp 200 (.ok (some (.jobj respData))) }).networkHeight = 12345 := by
  have hg : getHeight (.resp 200 (.ok (some (.jobj respData)))) = 12345 := by
    have e0 : (some (Json.jobj respData) : Option Json).bind Json.asObj
        = some respData := rfl
    have e1 : atoi "12345" = some (12345 : Int) := rfl
    simp [getHeight, e0, h1, h2, h3, e1]
  exact ⟨hg, by simp [updateMetrics, getHeights, hg],
    by simp [updateMetrics, getHeights, hg]⟩

/-- Witness for C5 at the concrete response body
`result.header.height = "12345"`. -/
theorem c5_witness :
    getHeight (goodOutcome "12345") = 12345 ∧
    (updateMetrics initialGauges
        { localOutcome := goodOutcome "12345",
          networkOutcome := .transportError }).localHeight = 12345 ∧
    (updateMetrics initialGauges
        { localOutcome := .transportError,
          networkOutcome := goodOutcome "12345" }).networkHeight = 12345 :=
  c5_wellformed_response_sets_gauge initialGauges .transportError
    [("jsonrpc", .jstr "2.0"), ("id", .jnum 1),
      ("result", .jobj [("header", .jobj [("height", .jstr "12345")])])]
    [("header", .jobj [("height", .jstr "12345")])]
    [("height", .jstr "12345")]
    rfl rfl rfl

/-- C6: whenever any step of an RPC call fails — request construction,
executing the request, a non-200 status, reading the body, unmarshaling,
`result` or `header` missing or not an object, `height` missing or not a
string, or decimal conversion — `rpcSuccessHeight` is `none` and
`getHeight` returns 0 for that call. -/
theorem c6_any_failure_yields_zero (outcome : RpcOutcome)
    (h : rpcSuccessHeight outcome = none) : getHeight outcome = 0 := by
  rw [getHeight_eq_success_getD, h]
  rfl

/-- Witness for C6 at a transport error. -/
theorem c6_witness :
    rpcSuccessHeight .transportError = none ∧ getHeight .transportError = 0 :=
  ⟨rfl, c6_any_failure_yields_zero .transportError rfl⟩

/-- C7: two consecutive successful polls yielding heights 100 then 105
leave the gauge at 105 — each update overwrites the previous value, and
this holds for each gauge separately (latest-value-wins). -/
theorem c7_latest_value_wins (g : Gauges) (e1 e2 : RpcEnv) :
    (getHeight e1.localOutcome = 100 → getHeight e2.localOutcome = 105 →
      (updateMetrics (updateMetrics g e1) e2).localHeight = 105) ∧
    (getHeight e1.networkOutcome = 100 → getHeight e2.networkOutcome = 105 →
      (updateMetrics (updateMetrics g e1) e2).networkHeight = 105) :=
  ⟨fun _ h2 => by simp [updateMetrics, getHeights, h2],
   fun _ h2 => by simp [updateMetrics, getHeights, h2]⟩

/-- Witness for C7: concrete successful responses with heights 100 then
105 leave both gauges at 105. -/
theorem c7_witness :
    (updateMetrics
        (updateMetrics initialGauges
          { localOutcome := goodOutcome "100",
            networkOutcome := goodOutcome "100" })
        { localOutcome := goodOutcome "105",
          networkOutcome := goodOutcome "105" }).localHeight = 105 ∧
    (updateMetrics
        (updateMetrics initialGauges
          { localOutcome := goodOutcome "100",
            networkOutcome := goodOutcome "100" })
        { localOutcome := goodOutcome "105",
          networkOutcome := goodOutcome "105" }).networkHeight = 105 :=
  ⟨(c7_latest_value_wins initialGauges
      { localOutcome := goodOutcome "100", networkOutcome := goodOutcome "100" }
      { localOutcome := goodOutcome "105",
        networkOutcome := goodOutcome "105" }).1 rfl rfl,
   (c7_latest_value_wins initialGauges
      { localOutcome := goodOutcome "100", networkOutcome := goodOutcome "100" }
      { localOutcome := goodOutcome "105",
        networkOutcome := goodOutcome "105" }).2 rfl rfl⟩

/-- C8: when the external credential command fails, `getAuthToken`
returns the empty string and the poller loop still runs, issuing its two
RPC requests per iteration, each carrying the header
`Authorization: Bearer ` followed by the empty token; the credential
failure is never fatal. -/
theorem c8_credential_failure_not_fatal (out endpoint : String) (n : Nat)
    (r : RpcRequest) (hr : r ∈ pollerRequests (.execError out) endpoint n) :
    getAuthToken (.execError out) = "" ∧
    (pollerRequests (.execError out) endpoint n).length = 2 * n ∧
    r.authorization = "Bearer " := by
  refine ⟨rfl, pollerRequestsAux_length _ _ _, ?_⟩
  rcases pollerRequestsAux_mem _ _ _ _ hr with h | h <;> subst h <;> rfl

/-- Witness for C8: a failing credential command, one poll iteration. -/
theorem c8_witness :
    getAuthToken (.execError "exit status 1") = "" ∧
    (pollerRequests (.execError "exit status 1")
      "http://localhost:26658" 1).length = 2 * 1 ∧
    (getHeightRequest "" "header.LocalHead"
      "http://localhost:26658").authorization = "Bearer " :=
  c8_credential_failure_not_fatal "exit status 1" "http://localhost:26658" 1 _
    (List.mem_cons_self _ _)

/-- C9: when the external credential command succeeds, the token is its
trimmed combined output, and every request the poller ever issues — in
any iteration — carries that same token, fetched once and never
refreshed. -/
theorem c9_token_is_trimmed_output_forever (out endpoint : String) (n : Nat)
    (r : RpcRequest) (hr : r ∈ pollerRequests (.success out) endpoint n) :
    getAuthToken (.success out) = trimSpace out ∧
    r.authorization = "Bearer " ++ trimSpace out := by
  refine ⟨rfl, ?_⟩
  rcases pollerRequestsAux_mem _ _ _ _ hr with h | h <;> subst h <;> rfl

/-- Witness for C9: command output with surrounding whitespace; the
request carries the trimmed token. -/
theorem c9_witness :
    getAuthToken (.success "  secrettoken\n") = trimSpace "  secrettoken\n" ∧
    (getHeightRequest "secrettoken" "header.LocalHead"
      "http://localhost:26658").authorization =
      "Bearer " ++ trimSpace "  secrettoken\n" :=
  c9_token_is_trimmed_output_forever "  secrettoken\n" "http://localhost:26658"
    3 _ (List.mem_cons_self _ _)

/-- C10: every RPC request the poller issues is a POST to the configured
endpoint whose JSON-RPC body has `jsonrpc = "2.0"`, the constant integer
id 1, method `header.LocalHead` or `header.NetworkHead`, and an empty
params list, with headers `Content-Type: application/json` and
`Authorization: Bearer ` followed by the token. -/
theorem c10_request_shape (cmd : CmdResult) (endpoint : String) (n : Nat)
    (r : RpcRequest) (hr : r ∈ pollerRequests cmd endpoint n) :
    r.httpMethod = "POST" ∧ r.url = endpoint ∧ r.jsonrpc = "2.0" ∧
    r.id = 1 ∧
    (r.method = "header.LocalHead" ∨ r.method = "header.NetworkHead") ∧
    r.params = [] ∧ r.contentType = "application/json" ∧
    r.authorization = "Bearer " ++ getAuthToken cmd := by
  rcases pollerRequestsAux_mem _ _ _ _ hr with h | h <;> subst h
  · exact ⟨rfl, rfl, rfl, rfl, Or.inl rfl, rfl, rfl, rfl⟩
  · exact ⟨rfl, rfl, rfl, rfl, Or.inr rfl, rfl, rfl, rfl⟩

/-- Witness for C10 on the first request of a run with token `tok`. -/
theorem c10_witness :
    (getHeightRequest "tok" "header.LocalHead"
      "http://localhost:26658").httpMethod = "POST" ∧
    (getHeightRequest "tok" "header.LocalHead"
      "http://localhost:26658").url = "http://localhost:26658" ∧
    (getHeightRequest "tok" "header.LocalHead"
      "http://localhost:26658").jsonrpc = "2.0" ∧
    (getHeightRequest "tok" "header.LocalHead"
      "http://localhost:26658").id = 1 ∧
    ((getHeightRequest "tok" "header.LocalHead"
      "http://localhost:26658").method = "header.LocalHead" ∨
     (getHeightRequest "tok" "header.LocalHead"
      "http://localhost:26658").method = "header.NetworkHead") ∧
    (getHeightRequest "tok" "header.LocalHead"
      "http://localhost:26658").params = [] ∧
    (getHeightRequest "tok" "header.LocalHead"
      "http://localhost:26658").contentType = "application/json" ∧
    (getHeightRequest "tok" "header.LocalHead"
      "http://localhost:26658").authorization =
      "Bearer " ++ getAuthToken (.success "tok") :=
  c10_request_shape (.success "tok") "http://localhost:26658" 2 _
    (List.mem_cons_self _ _)
